import Mathlib

/-!
# Car-Racing: `src/components/Ground.jsx`

A shallow embedding of the `Ground` component: the descriptor it hands to
`usePlane`, the three `useLoader` calls, its two `useEffect` bodies and the
JSX fragment it returns.

Conventions of the embedding.

* JavaScript numbers are rationals; a decimal literal of the source is the
  same decimal here, and `Math.PI` is the exact value of the double the
  language defines.
* Objects that the source mutates through references (textures, mesh
  geometries) live in explicit stores that the effects transform.
* A hook or an effect that throws returns the thrown value explicitly.
-/

namespace CarRacing

/-! ## Numbers -/

namespace Math

/-- The constant `Math.PI`: the IEEE-754 double nearest to π, which is the
rational 884279719003555 / 2^48. -/
def PI : ℚ := 884279719003555 / 281474976710656

end Math

/-! ## The physics collider (`usePlane`) -/

/-- The body types of the physics library. -/
inductive BodyType
  | Dynamic
  | Static
  | Kinematic
  deriving DecidableEq, Repr

/-- The props object a component returns to `usePlane`; every key is
optional, an absent key is `none`. -/
structure PlaneProps where
  type : Option BodyType
  rotation : Option (ℚ × ℚ × ℚ)
  position : Option (ℚ × ℚ × ℚ)
  mass : Option ℚ
  deriving DecidableEq

/-- The object literal of lines 13-18:
`({ type: 'Static', rotation: [-Math.PI / 2, 0, 0] })`. -/
def usePlaneProps : PlaneProps :=
  { type := some BodyType.Static
    rotation := some (-Math.PI / 2, 0, 0)
    position := none
    mass := none }

/-- Where the physics library places a body: the `position` key when given,
the origin otherwise. -/
def PlaneProps.bodyPosition (p : PlaneProps) : ℚ × ℚ × ℚ :=
  p.position.getD (0, 0, 0)

/-! ## Textures and the loader cache (`useLoader`) -/

/-- A texture object: the decoded image, the anisotropy level, and its
remaining fields by name. -/
structure Texture where
  image : String
  anisotropy : ℚ
  rest : List (String × ℚ)
  deriving DecidableEq

/-- The state of one entry of the loader cache. -/
inductive LoadState
  | pending
  | failed (err : String)
  | loaded (tex : Texture)
  deriving DecidableEq

/-- The loader cache, keyed by the requested path. -/
abbrev TextureCache := String → LoadState

/-- A reference to the texture object cached under `key`. -/
structure TexRef where
  key : String
  deriving DecidableEq, Repr

/-- What a hook throws instead of returning: the promise of a load that is
still pending (the component suspends), or the error of a failed load. -/
inductive Thrown
  | promise (path : String)
  | error (err : String)
  deriving DecidableEq, Repr

/-- The hook `useLoader(TextureLoader, path)`: returns the cached texture,
throws the pending promise, or rethrows the load error. -/
def useLoader (cache : TextureCache) (path : String) : Except Thrown TexRef :=
  match cache path with
  | LoadState.pending => Except.error (Thrown.promise path)
  | LoadState.failed err => Except.error (Thrown.error err)
  | LoadState.loaded _ => Except.ok { key := path }

/-- Reading a field of the texture behind a reference. -/
def deref (cache : TextureCache) (t : TexRef) : Option Texture :=
  match cache t.key with
  | LoadState.loaded tex => some tex
  | _ => none

/-! ## Asset paths (lines 26-52) -/

/-- The variable `process.env`, as far as it is read. -/
structure ProcessEnv where
  PUBLIC_URL : Option String

/-- String conversion of a template-literal hole. -/
def templateHole : Option String → String
  | some s => s
  | none => "undefined"

/-- The template literal of line 26. -/
def texturesFolderPath (env : ProcessEnv) : String :=
  templateHole env.PUBLIC_URL ++ "/textures/"

def gridTextureFileName : String := "grid.png"

def gridTextureFilePath (env : ProcessEnv) : String :=
  texturesFolderPath env ++ gridTextureFileName

def groundTextureFileName : String := "ground-ao.png"

def groundTextureFilePath (env : ProcessEnv) : String :=
  texturesFolderPath env ++ groundTextureFileName

def alphaMapTextureFileName : String := "alpha-map.png"

def alphaMapTextureFilePath (env : ProcessEnv) : String :=
  texturesFolderPath env ++ alphaMapTextureFileName

/-! ## The returned JSX (lines 93-147) -/

/-- The two mesh references of lines 77-78. -/
inductive RefName
  | meshRef1
  | meshRef2
  deriving DecidableEq, Repr

/-- The value of a JSX prop. -/
inductive PropValue
  | num (x : ℚ)
  | bool (b : Bool)
  | str (s : String)
  | arr (xs : List ℚ)
  | texture (t : TexRef)
  | ref (r : RefName)
  deriving DecidableEq

/-- A JSX element: tag, props in source order, children. -/
inductive JSX
  | element (tag : String) (props : List (String × PropValue)) (children : List JSX)

namespace JSX

def tag : JSX → String
  | element t _ _ => t

def props : JSX → List (String × PropValue)
  | element _ ps _ => ps

def children : JSX → List JSX
  | element _ _ cs => cs

/-- The value of the prop `name`, when the element has it. -/
def prop (e : JSX) (name : String) : Option PropValue :=
  e.props.lookup name

/-- The first child with the given tag. -/
def child (e : JSX) (t : String) : Option JSX :=
  e.children.find? (fun c => c.tag == t)

/-- The props of an element that carry a texture, with their names. -/
def textureSlots (e : JSX) : List (String × TexRef) :=
  e.props.filterMap (fun p =>
    match p.2 with
    | PropValue.texture t => some (p.1, t)
    | _ => none)

/-- A numeric prop, with the renderer default when it is absent. -/
def numProp (e : JSX) (name : String) (dflt : ℚ) : ℚ :=
  match e.prop name with
  | some (PropValue.num x) => x
  | _ => dflt

/-- The Euler rotation the renderer gives the object: the pierced props
`rotation-x`, `rotation-y`, `rotation-z` over the default (0, 0, 0). -/
def rotation (e : JSX) : ℚ × ℚ × ℚ :=
  (e.numProp "rotation-x" 0, e.numProp "rotation-y" 0, e.numProp "rotation-z" 0)

end JSX

mutual
/-- Number of elements with tag `t` in a tree. -/
def countTag (t : String) : JSX → Nat
  | JSX.element tag _ cs => (if tag = t then 1 else 0) + countTagList t cs
/-- Number of elements with tag `t` in a forest. -/
def countTagList (t : String) : List JSX → Nat
  | [] => 0
  | c :: cs => countTag t c + countTagList t cs
end

/-- The `<meshBasicMaterial>` element of lines 101-106. -/
def basicMaterial (gridMap : TexRef) : JSX :=
  JSX.element "meshBasicMaterial"
    [("opacity", PropValue.num 0.325),
     ("alphaMap", PropValue.texture gridMap),
     ("transparent", PropValue.bool true),
     ("color", PropValue.str "white")] []

/-- The first `<mesh>` of the fragment (lines 95-107): the grid overlay. -/
def overlayMesh (gridMap : TexRef) : JSX :=
  JSX.element "mesh"
    [("ref", PropValue.ref RefName.meshRef2),
     ("position", PropValue.arr [-2.285, -0.01, -1.325]),
     ("rotation-x", PropValue.num (-Math.PI * 0.5))]
    [JSX.element "planeGeometry" [("args", PropValue.arr [12, 12])] [],
     basicMaterial gridMap]

/-- The `<MeshReflectorMaterial>` element of lines 119-143. -/
def reflectorMaterial (aoMap alphaMap : TexRef) : JSX :=
  JSX.element "MeshReflectorMaterial"
    [("aoMap", PropValue.texture aoMap),
     ("alphaMap", PropValue.texture alphaMap),
     ("transparent", PropValue.bool true),
     ("color", PropValue.arr [0.5, 0.5, 0.5]),
     ("envMapIntensity", PropValue.num 0.35),
     ("metalness", PropValue.num 0.05),
     ("roughness", PropValue.num 0.4),
     ("dithering", PropValue.bool true),
     ("blur", PropValue.arr [1024, 512]),
     ("mixBlur", PropValue.num 3),
     ("mixStrength", PropValue.num 30),
     ("mixContrast", PropValue.num 1),
     ("resolution", PropValue.num 1024),
     ("mirror", PropValue.num 0),
     ("depthScale", PropValue.num 0),
     ("minDepthThreshold", PropValue.num 0.9),
     ("maxDepthThreshold", PropValue.num 1),
     ("depthToBlurRatioBias", PropValue.num 0.25),
     ("debug", PropValue.num 0),
     ("reflectorOffset", PropValue.num 0.02)] []

/-- The second `<mesh>` of the fragment (lines 108-145): the reflective
floor. -/
def floorMesh (aoMap alphaMap : TexRef) : JSX :=
  JSX.element "mesh"
    [("ref", PropValue.ref RefName.meshRef1),
     ("position", PropValue.arr [-2.285, -0.015, -1.325]),
     ("rotation-x", PropValue.num (-Math.PI * 0.5)),
     ("rotation-z", PropValue.num (-0.079))]
    [JSX.element "circleGeometry" [("args", PropValue.arr [6.12, 50])] [],
     reflectorMaterial aoMap alphaMap]

/-! ## The component body (lines 8-148) -/

/-- One call of `Ground`: the props handed to `usePlane`, the paths handed
to `useLoader` in call order, and either the children of the returned
fragment or what the call threw. -/
structure GroundRun where
  collider : PlaneProps
  requests : List String
  result : Except Thrown (List JSX)

/-- The function `Ground`. The hooks run in source order; a `useLoader`
that throws ends the call there. -/
def Ground (env : ProcessEnv) (cache : TextureCache) : GroundRun :=
  match useLoader cache (gridTextureFilePath env) with
  | Except.error t =>
    { collider := usePlaneProps
      requests := [gridTextureFilePath env]
      result := Except.error t }
  | Except.ok gridMap =>
    match useLoader cache (groundTextureFilePath env) with
    | Except.error t =>
      { collider := usePlaneProps
        requests := [gridTextureFilePath env, groundTextureFilePath env]
        result := Except.error t }
    | Except.ok aoMap =>
      match useLoader cache (alphaMapTextureFilePath env) with
      | Except.error t =>
        { collider := usePlaneProps
          requests := [gridTextureFilePath env, groundTextureFilePath env,
            alphaMapTextureFilePath env]
          result := Except.error t }
      | Except.ok alphaMap =>
        { collider := usePlaneProps
          requests := [gridTextureFilePath env, groundTextureFilePath env,
            alphaMapTextureFilePath env]
          result := Except.ok [overlayMesh gridMap, floorMesh aoMap alphaMap] }

/-- The mesh elements a call of `Ground` hands to the renderer: the
children of the fragment, none when the call threw. -/
def GroundRun.rendered (r : GroundRun) : List JSX :=
  match r.result with
  | Except.ok tree => tree
  | Except.error _ => []

/-! ## The anisotropy effect (lines 67-72) -/

/-- The assignment `tex.anisotropy = v` through a reference. -/
def setAnisotropy (cache : TextureCache) (t : TexRef) (v : ℚ) : TextureCache :=
  fun path =>
    if path = t.key then
      match cache path with
      | LoadState.loaded tex => LoadState.loaded { tex with anisotropy := v }
      | s => s
    else cache path

/-- The effect body of lines 67-72; `gridMap` is `none` when the variable
is falsy. -/
def anisotropyEffect (gridMap : Option TexRef) (cache : TextureCache) : TextureCache :=
  match gridMap with
  | none => cache
  | some g => setAnisotropy cache g 16

/-! ## The UV-copy effect (lines 77-91) -/

/-- A typed array of texture coordinates. -/
abbrev Float32Array := List ℚ

/-- The renderer class `BufferAttribute`. -/
structure BufferAttribute where
  array : Float32Array
  itemSize : Nat
  count : Nat
  deriving DecidableEq

/-- The constructor `new BufferAttribute(array, itemSize)`. -/
def BufferAttribute.new (array : Float32Array) (itemSize : Nat) : BufferAttribute :=
  { array := array, itemSize := itemSize, count := array.length / itemSize }

/-- A geometry object: its named attributes. -/
structure BufferGeometry where
  attributes : String → Option BufferAttribute

/-- The method `geometry.setAttribute(name, attribute)`. -/
def BufferGeometry.setAttribute (g : BufferGeometry) (name : String)
    (attr : BufferAttribute) : BufferGeometry :=
  { attributes := fun k => if k = name then some attr else g.attributes k }

/-- A mesh object, as far as the effect touches it. -/
structure Mesh where
  geometry : BufferGeometry

/-- The `current` fields of the two references; `none` is `null`. -/
structure MeshRefs where
  meshRef1 : Option Mesh
  meshRef2 : Option Mesh

/-- The errors the effect can raise. -/
inductive JsError
  | typeError (reading : String)
  deriving DecidableEq, Repr

/-- The state an effect leaves and what it threw, if anything. -/
structure EffectRun where
  state : MeshRefs
  thrown : Option JsError

/-- The effect body of lines 83-91. Reading a property of `null` or of
`undefined` throws a `TypeError`; what was assigned before stays. -/
def uvCopyEffect (s : MeshRefs) : EffectRun :=
  match s.meshRef1 with
  | none => { state := s, thrown := none }
  | some m1 =>
    match m1.geometry.attributes "uv" with
    | none => { state := s, thrown := some (JsError.typeError "array") }
    | some uv1 =>
      let m1a : Mesh :=
        { geometry := m1.geometry.setAttribute "uv2" (BufferAttribute.new uv1.array 2) }
      let s1 : MeshRefs := { meshRef1 := some m1a, meshRef2 := s.meshRef2 }
      match s1.meshRef2 with
      | none => { state := s1, thrown := some (JsError.typeError "geometry") }
      | some m2 =>
        match m2.geometry.attributes "uv" with
        | none => { state := s1, thrown := some (JsError.typeError "array") }
        | some uv2 =>
          let m2a : Mesh :=
            { geometry := m2.geometry.setAttribute "uv2" (BufferAttribute.new uv2.array 2) }
          { state := { meshRef1 := s1.meshRef1, meshRef2 := some m2a }, thrown := none }

/-! ## Observations used by the statements -/

/-- The `position` prop of an element, as a triple. -/
def JSX.position (e : JSX) : Option (ℚ × ℚ × ℚ) :=
  match e.prop "position" with
  | some (PropValue.arr [x, y, z]) => some (x, y, z)
  | _ => none

/-- The `args` prop of the child with tag `t`: the constructor arguments
of a geometry element. -/
def JSX.childArgs (e : JSX) (t : String) : Option (List ℚ) :=
  match e.child t with
  | some c =>
    match c.prop "args" with
    | some (PropValue.arr xs) => some xs
    | _ => none
  | none => none

/-- An angle in radians, read in degrees (with the language's `Math.PI`).
The renderer's Euler angles are radians; the specification's table is in
degrees. -/
def radToDeg (x : ℚ) : ℚ := x * 180 / Math.PI

/-- A process environment whose asset root is the empty string. -/
def sampleEnv : ProcessEnv := { PUBLIC_URL := some "" }

/-- A cache in which every load has succeeded. -/
def sampleCache : TextureCache :=
  fun path => LoadState.loaded { image := path, anisotropy := 1, rest := [] }

/-- A cache in which the load of `path` has failed with `err` and every
other load has succeeded. -/
def failAt (path err : String) : TextureCache :=
  fun p =>
    if p = path then LoadState.failed err
    else LoadState.loaded { image := p, anisotropy := 1, rest := [] }

/-- A mesh whose geometry has the single attribute `uv`, with the given
coordinates. -/
def sampleMesh (uv : Float32Array) : Mesh :=
  { geometry :=
      { attributes := fun k => if k = "uv" then some (BufferAttribute.new uv 2) else none } }

/-! ## Lemmas on the hooks -/

theorem useLoader_ok_iff (cache : TextureCache) (path : String) (g : TexRef) :
    useLoader cache path = Except.ok g ↔
      (∃ tex, cache path = LoadState.loaded tex) ∧ g = TexRef.mk path := by
  unfold useLoader
  cases h : cache path <;> simp [eq_comm]

theorem useLoader_loaded (cache : TextureCache) (path : String) (tex : Texture)
    (h : cache path = LoadState.loaded tex) :
    useLoader cache path = Except.ok (TexRef.mk path) := by
  simp [useLoader, h]

theorem useLoader_failed (cache : TextureCache) (path : String) (err : String)
    (h : cache path = LoadState.failed err) :
    useLoader cache path = Except.error (Thrown.error err) := by
  simp [useLoader, h]

theorem useLoader_pending (cache : TextureCache) (path : String)
    (h : cache path = LoadState.pending) :
    useLoader cache path = Except.error (Thrown.promise path) := by
  simp [useLoader, h]

/-- When the three loads have succeeded, `Ground` requests the three paths
and returns the two meshes. -/
theorem Ground_of_loaded (env : ProcessEnv) (cache : TextureCache) (tg ta tl : Texture)
    (hg : cache (gridTextureFilePath env) = LoadState.loaded tg)
    (ha : cache (groundTextureFilePath env) = LoadState.loaded ta)
    (hl : cache (alphaMapTextureFilePath env) = LoadState.loaded tl) :
    Ground env cache =
      { collider := usePlaneProps
        requests := [gridTextureFilePath env, groundTextureFilePath env,
          alphaMapTextureFilePath env]
        result := Except.ok
          [overlayMesh (TexRef.mk (gridTextureFilePath env)),
           floorMesh (TexRef.mk (groundTextureFilePath env))
             (TexRef.mk (alphaMapTextureFilePath env))] } := by
  simp [Ground, useLoader_loaded _ _ _ hg, useLoader_loaded _ _ _ ha,
    useLoader_loaded _ _ _ hl]

/-- A call of `Ground` that returns has found the three textures loaded,
and returns the two meshes bound to them. -/
theorem Ground_result_ok (env : ProcessEnv) (cache : TextureCache) (out : List JSX)
    (h : (Ground env cache).result = Except.ok out) :
    (∃ tg, cache (gridTextureFilePath env) = LoadState.loaded tg) ∧
    (∃ ta, cache (groundTextureFilePath env) = LoadState.loaded ta) ∧
    (∃ tl, cache (alphaMapTextureFilePath env) = LoadState.loaded tl) ∧
    out = [overlayMesh (TexRef.mk (gridTextureFilePath env)),
           floorMesh (TexRef.mk (groundTextureFilePath env))
             (TexRef.mk (alphaMapTextureFilePath env))] := by
  cases hg : cache (gridTextureFilePath env) with
  | pending => simp [Ground, useLoader_pending _ _ hg] at h
  | failed e => simp [Ground, useLoader_failed _ _ _ hg] at h
  | loaded tg =>
    cases ha : cache (groundTextureFilePath env) with
    | pending => simp [Ground, useLoader_loaded _ _ _ hg, useLoader_pending _ _ ha] at h
    | failed e =>
      simp [Ground, useLoader_loaded _ _ _ hg, useLoader_failed _ _ _ ha] at h
    | loaded ta =>
      cases hl : cache (alphaMapTextureFilePath env) with
      | pending =>
        simp [Ground, useLoader_loaded _ _ _ hg, useLoader_loaded _ _ _ ha,
          useLoader_pending _ _ hl] at h
      | failed e =>
        simp [Ground, useLoader_loaded _ _ _ hg, useLoader_loaded _ _ _ ha,
          useLoader_failed _ _ _ hl] at h
      | loaded tl =>
        rw [Ground_of_loaded env cache tg ta tl hg ha hl] at h
        simp only [Except.ok.injEq] at h
        exact ⟨⟨tg, rfl⟩, ⟨ta, rfl⟩, ⟨tl, rfl⟩, h.symm⟩

theorem sample_loaded (path : String) :
    sampleCache path = LoadState.loaded { image := path, anisotropy := 1, rest := [] } :=
  rfl

/-- The tree `Ground` returns for the sample environment and cache. -/
theorem sample_result :
    (Ground sampleEnv sampleCache).result = Except.ok
      [overlayMesh (TexRef.mk "/textures/grid.png"),
       floorMesh (TexRef.mk "/textures/ground-ao.png")
         (TexRef.mk "/textures/alpha-map.png")] := by
  rw [Ground_of_loaded sampleEnv sampleCache _ _ _ (sample_loaded _) (sample_loaded _)
    (sample_loaded _)]
  rfl

/-- The anisotropy effect changes no load state, so every `useLoader` call
returns or throws as before it. -/
theorem useLoader_anisotropyEffect (g : Option TexRef) (cache : TextureCache)
    (path : String) :
    useLoader (anisotropyEffect g cache) path = useLoader cache path := by
  cases g with
  | none => rfl
  | some t =>
    unfold anisotropyEffect setAnisotropy useLoader
    by_cases hp : path = t.key
    · simp only [hp, if_true]
      cases cache t.key <;> rfl
    · simp only [hp, if_false]

/-- A call of `Ground` is the same before and after the anisotropy effect. -/
theorem Ground_anisotropyEffect (g : Option TexRef) (env : ProcessEnv)
    (cache : TextureCache) :
    Ground env (anisotropyEffect g cache) = Ground env cache := by
  unfold Ground
  simp only [useLoader_anisotropyEffect]

/-- Every call of `Ground` hands the same props to `usePlane`. -/
theorem Ground_collider (env : ProcessEnv) (cache : TextureCache) :
    (Ground env cache).collider = usePlaneProps := by
  unfold Ground
  split
  · rfl
  · split
    · rfl
    · split <;> rfl

/-- Appending to the same string is injective. -/
theorem append_left_cancel (a b c : String) (h : a ++ b = a ++ c) : b = c := by
  have hd := congrArg String.data h
  simp only [String.data_append] at hd
  exact String.ext (List.append_cancel_left hd)

theorem grid_ne_ground (env : ProcessEnv) :
    gridTextureFilePath env ≠ groundTextureFilePath env := by
  intro h
  have h2 := append_left_cancel _ _ _ h
  revert h2
  decide

theorem grid_ne_alpha (env : ProcessEnv) :
    gridTextureFilePath env ≠ alphaMapTextureFilePath env := by
  intro h
  have h2 := append_left_cancel _ _ _ h
  revert h2
  decide

theorem ground_ne_alpha (env : ProcessEnv) :
    groundTextureFilePath env ≠ alphaMapTextureFilePath env := by
  intro h
  have h2 := append_left_cancel _ _ _ h
  revert h2
  decide

/-- The three paths, written from the asset root. -/
theorem paths_of_root (r : String) :
    gridTextureFilePath { PUBLIC_URL := some r } = r ++ "/textures/grid.png" ∧
    groundTextureFilePath { PUBLIC_URL := some r } = r ++ "/textures/ground-ao.png" ∧
    alphaMapTextureFilePath { PUBLIC_URL := some r } = r ++ "/textures/alpha-map.png" := by
  simp only [gridTextureFilePath, groundTextureFilePath, alphaMapTextureFilePath,
    texturesFolderPath, templateHole, String.append_assoc]
  exact ⟨rfl, rfl, rfl⟩

/-- Every path `Ground` hands to `useLoader` is one of the three. -/
theorem Ground_requests_mem (env : ProcessEnv) (cache : TextureCache) (p : String)
    (hp : p ∈ (Ground env cache).requests) :
    p = gridTextureFilePath env ∨ p = groundTextureFilePath env ∨
      p = alphaMapTextureFilePath env := by
  unfold Ground at hp
  split at hp
  · simp at hp; exact Or.inl hp
  · split at hp
    · simp at hp; rcases hp with hp | hp
      · exact Or.inl hp
      · exact Or.inr (Or.inl hp)
    · split at hp <;> simpa using hp

/-- A load that fails after the loads before it succeeded ends the call
with its error. -/
theorem Ground_grid_failed (env : ProcessEnv) (cache : TextureCache) (e : String)
    (hg : cache (gridTextureFilePath env) = LoadState.failed e) :
    Ground env cache =
      { collider := usePlaneProps
        requests := [gridTextureFilePath env]
        result := Except.error (Thrown.error e) } := by
  simp [Ground, useLoader_failed _ _ _ hg]

theorem Ground_ground_failed (env : ProcessEnv) (cache : TextureCache) (tg : Texture)
    (e : String)
    (hg : cache (gridTextureFilePath env) = LoadState.loaded tg)
    (ha : cache (groundTextureFilePath env) = LoadState.failed e) :
    Ground env cache =
      { collider := usePlaneProps
        requests := [gridTextureFilePath env, groundTextureFilePath env]
        result := Except.error (Thrown.error e) } := by
  simp [Ground, useLoader_loaded _ _ _ hg, useLoader_failed _ _ _ ha]

theorem Ground_alpha_failed (env : ProcessEnv) (cache : TextureCache) (tg ta : Texture)
    (e : String)
    (hg : cache (gridTextureFilePath env) = LoadState.loaded tg)
    (ha : cache (groundTextureFilePath env) = LoadState.loaded ta)
    (hl : cache (alphaMapTextureFilePath env) = LoadState.failed e) :
    Ground env cache =
      { collider := usePlaneProps
        requests := [gridTextureFilePath env, groundTextureFilePath env,
          alphaMapTextureFilePath env]
        result := Except.error (Thrown.error e) } := by
  simp [Ground, useLoader_loaded _ _ _ hg, useLoader_loaded _ _ _ ha,
    useLoader_failed _ _ _ hl]

/-- A requested path whose load has failed ends the call with that error. -/
theorem Ground_requested_failed (env : ProcessEnv) (cache : TextureCache)
    (p e : String) (hp : p ∈ (Ground env cache).requests)
    (hf : cache p = LoadState.failed e) :
    (Ground env cache).result = Except.error (Thrown.error e) := by
  cases hg : cache (gridTextureFilePath env) with
  | pending =>
    simp [Ground, useLoader_pending _ _ hg] at hp
    rw [hp, hg] at hf
    exact absurd hf (by simp)
  | failed e1 =>
    simp [Ground, useLoader_failed _ _ _ hg] at hp
    rw [hp, hg] at hf
    simp only [LoadState.failed.injEq] at hf
    rw [Ground_grid_failed env cache e1 hg, hf]
  | loaded tg =>
    cases ha : cache (groundTextureFilePath env) with
    | pending =>
      simp [Ground, useLoader_loaded _ _ _ hg, useLoader_pending _ _ ha] at hp
      rcases hp with hp | hp
      · rw [hp, hg] at hf; exact absurd hf (by simp)
      · rw [hp, ha] at hf; exact absurd hf (by simp)
    | failed e1 =>
      simp [Ground, useLoader_loaded _ _ _ hg, useLoader_failed _ _ _ ha] at hp
      rcases hp with hp | hp
      · rw [hp, hg] at hf; exact absurd hf (by simp)
      · rw [hp, ha] at hf
        simp only [LoadState.failed.injEq] at hf
        rw [Ground_ground_failed env cache tg e1 hg ha, hf]
    | loaded ta =>
      cases hl : cache (alphaMapTextureFilePath env) with
      | pending =>
        simp [Ground, useLoader_loaded _ _ _ hg, useLoader_loaded _ _ _ ha,
          useLoader_pending _ _ hl] at hp
        rcases hp with hp | hp | hp
        · rw [hp, hg] at hf; exact absurd hf (by simp)
        · rw [hp, ha] at hf; exact absurd hf (by simp)
        · rw [hp, hl] at hf; exact absurd hf (by simp)
      | failed e1 =>
        simp [Ground, useLoader_loaded _ _ _ hg, useLoader_loaded _ _ _ ha,
          useLoader_failed _ _ _ hl] at hp
        rcases hp with hp | hp | hp
        · rw [hp, hg] at hf; exact absurd hf (by simp)
        · rw [hp, ha] at hf; exact absurd hf (by simp)
        · rw [hp, hl] at hf
          simp only [LoadState.failed.injEq] at hf
          rw [Ground_alpha_failed env cache tg ta e1 hg ha hl, hf]
      | loaded tl =>
        rw [Ground_of_loaded env cache tg ta tl hg ha hl] at hp
        simp at hp
        rcases hp with hp | hp | hp
        · rw [hp, hg] at hf; exact absurd hf (by simp)
        · rw [hp, ha] at hf; exact absurd hf (by simp)
        · rw [hp, hl] at hf; exact absurd hf (by simp)

/-- No path is requested twice in one call. -/
theorem Ground_requests_nodup (env : ProcessEnv) (cache : TextureCache) :
    (Ground env cache).requests.Nodup := by
  have n1 := grid_ne_ground env
  have n2 := grid_ne_alpha env
  have n3 := ground_ne_alpha env
  unfold Ground
  split
  · simp
  · split
    · simp [n1]
    · split <;> simp [n1, n2, n3]

/-- A call that threw hands nothing to the renderer. -/
theorem rendered_of_error (r : GroundRun) (t : Thrown) (h : r.result = Except.error t) :
    r.rendered = [] := by
  simp [GroundRun.rendered, h]

/-- In the sample environment, with the alpha-map load failed, the grid
and ground-ao entries are loaded and the alpha-map entry is failed. -/
theorem failAt_alpha :
    (∃ tg, failAt "/textures/alpha-map.png" "404" (gridTextureFilePath sampleEnv)
      = LoadState.loaded tg) ∧
    (∃ ta, failAt "/textures/alpha-map.png" "404" (groundTextureFilePath sampleEnv)
      = LoadState.loaded ta) ∧
    failAt "/textures/alpha-map.png" "404" (alphaMapTextureFilePath sampleEnv)
      = LoadState.failed "404" := by
  refine ⟨⟨{ image := gridTextureFilePath sampleEnv, anisotropy := 1, rest := [] }, ?_⟩,
    ⟨{ image := groundTextureFilePath sampleEnv, anisotropy := 1, rest := [] }, ?_⟩, ?_⟩
  · exact if_neg (by decide)
  · exact if_neg (by decide)
  · exact if_pos (by decide)

/-- The double `Math.PI` is within 2e-16 of π. -/
theorem Math_PI_near_pi : |((Math.PI : ℚ) : ℝ) - Real.pi| < 2 / 10 ^ 16 := by
  have h1 := Real.pi_gt_d20
  have h2 := Real.pi_lt_d20
  rw [abs_lt]
  unfold Math.PI
  push_cast
  constructor <;> norm_num at h1 h2 ⊢ <;> linarith

/-! ## The claims -/

/-- C4: the collider descriptor that `Ground` passes to `usePlane` is the
same constant for every environment and cache: its rotation is
(-π/2, 0, 0), with π the language constant `Math.PI` (within 2e-16 of the
real π), its type is static, and it gives no position, so that the body
sits at the origin, and no mass. -/
theorem C4_collider_constant (env : ProcessEnv) (cache : TextureCache) :
    (Ground env cache).collider = usePlaneProps ∧
    (Ground env cache).collider.rotation = some (-Math.PI / 2, 0, 0) ∧
    (Ground env cache).collider.type = some BodyType.Static ∧
    (Ground env cache).collider.position = none ∧
    (Ground env cache).collider.bodyPosition = (0, 0, 0) ∧
    (Ground env cache).collider.mass = none ∧
    |((Math.PI : ℚ) : ℝ) - Real.pi| < 2 / 10 ^ 16 := by
  rw [Ground_collider env cache]
  exact ⟨rfl, rfl, rfl, rfl, rfl, rfl, Math_PI_near_pi⟩

/-- C5: whenever `Ground` returns, the returned tree contains exactly two
`mesh` elements: first the overlay, with a `planeGeometry` of arguments
12 and 12 at position (-2.285, -0.01, -1.325), then the floor, with a
`circleGeometry` of radius 6.12 and 50 segments at position
(-2.285, -0.015, -1.325); the two positions share x and z and the
overlay is strictly higher. -/
theorem C5_render_tree (env : ProcessEnv) (cache : TextureCache) (out : List JSX)
    (h : (Ground env cache).result = Except.ok out) :
    countTagList "mesh" out = 2 ∧
    ∃ overlay floor, out = [overlay, floor] ∧
      overlay.tag = "mesh" ∧ floor.tag = "mesh" ∧
      overlay.childArgs "planeGeometry" = some [12, 12] ∧
      overlay.childArgs "circleGeometry" = none ∧
      overlay.position = some (-2.285, -0.01, -1.325) ∧
      floor.childArgs "circleGeometry" = some [6.12, 50] ∧
      floor.childArgs "planeGeometry" = none ∧
      floor.position = some (-2.285, -0.015, -1.325) ∧
      (∀ po pf, overlay.position = some po → floor.position = some pf →
        po.1 = pf.1 ∧ po.2.2 = pf.2.2 ∧ pf.2.1 < po.2.1) := by
  obtain ⟨-, -, -, rfl⟩ := Ground_result_ok env cache out h
  refine ⟨by simp [countTagList, countTag, overlayMesh, floorMesh, basicMaterial,
    reflectorMaterial], _, _, rfl, ?_⟩
  refine ⟨rfl, rfl, ?_, ?_, ?_, ?_, ?_, ?_, ?_⟩
  · simp [JSX.childArgs, JSX.child, JSX.children, JSX.tag, JSX.prop, JSX.props,
      overlayMesh, List.lookup]
  · simp [JSX.childArgs, JSX.child, JSX.children, JSX.tag, overlayMesh, basicMaterial]
  · simp [JSX.position, JSX.prop, JSX.props, overlayMesh, List.lookup]
  · simp [JSX.childArgs, JSX.child, JSX.children, JSX.tag, JSX.prop, JSX.props,
      floorMesh, List.lookup]
  · simp [JSX.childArgs, JSX.child, JSX.children, JSX.tag, floorMesh, reflectorMaterial]
  · simp [JSX.position, JSX.prop, JSX.props, floorMesh, List.lookup]
  · intro po pf hpo hpf
    simp [JSX.position, JSX.prop, JSX.props, overlayMesh, floorMesh, List.lookup] at hpo hpf
    subst hpo hpf
    norm_num

/-- C5 at the sample environment and cache: the call returns, and the
returned tree has two `mesh` elements. -/
theorem C5_render_tree_witness :
    (Ground sampleEnv sampleCache).result = Except.ok
      [overlayMesh (TexRef.mk "/textures/grid.png"),
       floorMesh (TexRef.mk "/textures/ground-ao.png")
         (TexRef.mk "/textures/alpha-map.png")] ∧
    countTagList "mesh"
      [overlayMesh (TexRef.mk "/textures/grid.png"),
       floorMesh (TexRef.mk "/textures/ground-ao.png")
         (TexRef.mk "/textures/alpha-map.png")] = 2 :=
  ⟨sample_result, (C5_render_tree sampleEnv sampleCache _ sample_result).1⟩

/-- C6 as stated fails: in the tree returned for the sample environment the
floor is turned about Z by -0.079 radians, which read in degrees (the unit
in which its X rotation is -90) is not -0.079. -/
theorem C6_floor_z_not_degrees :
    (Ground sampleEnv sampleCache).result = Except.ok
      [overlayMesh (TexRef.mk "/textures/grid.png"),
       floorMesh (TexRef.mk "/textures/ground-ao.png")
         (TexRef.mk "/textures/alpha-map.png")] ∧
    radToDeg (floorMesh (TexRef.mk "/textures/ground-ao.png")
      (TexRef.mk "/textures/alpha-map.png")).rotation.1 = -90 ∧
    radToDeg (floorMesh (TexRef.mk "/textures/ground-ao.png")
      (TexRef.mk "/textures/alpha-map.png")).rotation.2.2 ≠ -0.079 := by
  refine ⟨sample_result, ?_, ?_⟩
  · simp [radToDeg, JSX.rotation, JSX.numProp, JSX.prop, JSX.props, floorMesh,
      List.lookup, Math.PI]
    norm_num
  · simp [radToDeg, JSX.rotation, JSX.numProp, JSX.prop, JSX.props, floorMesh,
      List.lookup, Math.PI]
    norm_num

/-- C6, amended: whenever `Ground` returns, the overlay is rotated by
(-π/2, 0, 0) and the floor by (-π/2, 0, -0.079), both in radians; in
degrees that is (-90, 0, 0) for the overlay and (-90, 0, z) for the floor
with z between -4.5264 and -4.5263; both X rotations equal the X rotation
of the static collider. -/
theorem C6_rotations (env : ProcessEnv) (cache : TextureCache) (out : List JSX)
    (h : (Ground env cache).result = Except.ok out) :
    ∃ overlay floor, out = [overlay, floor] ∧
      overlay.rotation = (-Math.PI / 2, 0, 0) ∧
      floor.rotation = (-Math.PI / 2, 0, -0.079) ∧
      radToDeg overlay.rotation.1 = -90 ∧
      radToDeg overlay.rotation.2.1 = 0 ∧
      radToDeg overlay.rotation.2.2 = 0 ∧
      radToDeg floor.rotation.1 = -90 ∧
      radToDeg floor.rotation.2.1 = 0 ∧
      -4.5264 < radToDeg floor.rotation.2.2 ∧
      radToDeg floor.rotation.2.2 < -4.5263 ∧
      (Ground env cache).collider.rotation = some (overlay.rotation.1, 0, 0) ∧
      (Ground env cache).collider.rotation = some (floor.rotation.1, 0, 0) := by
  obtain ⟨-, -, -, rfl⟩ := Ground_result_ok env cache out h
  have ho : (overlayMesh (TexRef.mk (gridTextureFilePath env))).rotation
      = (-Math.PI / 2, 0, 0) := by
    simp [JSX.rotation, JSX.numProp, JSX.prop, JSX.props, overlayMesh, List.lookup]
    ring
  have hf : (floorMesh (TexRef.mk (groundTextureFilePath env))
      (TexRef.mk (alphaMapTextureFilePath env))).rotation
      = (-Math.PI / 2, 0, -0.079) := by
    simp [JSX.rotation, JSX.numProp, JSX.prop, JSX.props, floorMesh, List.lookup]
    ring
  refine ⟨_, _, rfl, ho, hf, ?_⟩
  rw [ho, hf, Ground_collider env cache]
  simp only [usePlaneProps]
  simp only [radToDeg, Math.PI]
  norm_num

/-- C6, amended, at the sample environment and cache. -/
theorem C6_rotations_witness :
    (Ground sampleEnv sampleCache).result = Except.ok
      [overlayMesh (TexRef.mk "/textures/grid.png"),
       floorMesh (TexRef.mk "/textures/ground-ao.png")
         (TexRef.mk "/textures/alpha-map.png")] ∧
    ∃ overlay floor,
      [overlayMesh (TexRef.mk "/textures/grid.png"),
       floorMesh (TexRef.mk "/textures/ground-ao.png")
         (TexRef.mk "/textures/alpha-map.png")] = [overlay, floor] ∧
      overlay.rotation = (-Math.PI / 2, 0, 0) ∧
      floor.rotation = (-Math.PI / 2, 0, -0.079) := by
  obtain ⟨overlay, floor, h1, h2, h3, -⟩ :=
    C6_rotations sampleEnv sampleCache _ sample_result
  exact ⟨sample_result, overlay, floor, h1, h2, h3⟩

/-- C7: whenever `Ground` returns, whatever the environment and the cached
textures, the overlay material has opacity 0.325, colour white and
transparent true, and the floor material has roughness 0.4,
metalness 0.05, mixBlur 3, mixStrength 30, mixContrast 1, blur (1024, 512),
resolution 1024, mirror 0, depthScale 0, dithering true and colour
(0.5, 0.5, 0.5); every call that returns in the same environment, with
whatever textures in the cache, returns the same tree, and so does a call
with the cache as the anisotropy effect leaves it. -/
theorem C7_material_constants (env : ProcessEnv) (cache : TextureCache) (out : List JSX)
    (h : (Ground env cache).result = Except.ok out) :
    (∃ overlay floor om fm, out = [overlay, floor] ∧
      overlay.child "meshBasicMaterial" = some om ∧
      om.prop "opacity" = some (PropValue.num 0.325) ∧
      om.prop "color" = some (PropValue.str "white") ∧
      om.prop "transparent" = some (PropValue.bool true) ∧
      floor.child "MeshReflectorMaterial" = some fm ∧
      fm.prop "roughness" = some (PropValue.num 0.4) ∧
      fm.prop "metalness" = some (PropValue.num 0.05) ∧
      fm.prop "mixBlur" = some (PropValue.num 3) ∧
      fm.prop "mixStrength" = some (PropValue.num 30) ∧
      fm.prop "mixContrast" = some (PropValue.num 1) ∧
      fm.prop "blur" = some (PropValue.arr [1024, 512]) ∧
      fm.prop "resolution" = some (PropValue.num 1024) ∧
      fm.prop "mirror" = some (PropValue.num 0) ∧
      fm.prop "depthScale" = some (PropValue.num 0) ∧
      fm.prop "dithering" = some (PropValue.bool true) ∧
      fm.prop "color" = some (PropValue.arr [0.5, 0.5, 0.5])) ∧
    (∀ cache2 out2, (Ground env cache2).result = Except.ok out2 → out2 = out) ∧
    (∀ g, (Ground env (anisotropyEffect g cache)).result = Except.ok out) := by
  refine ⟨?_, ?_, fun g => by rw [Ground_anisotropyEffect]; exact h⟩
  swap
  · intro cache2 out2 h2
    rw [(Ground_result_ok env cache2 out2 h2).2.2.2, (Ground_result_ok env cache out h).2.2.2]
  obtain ⟨-, -, -, rfl⟩ := Ground_result_ok env cache out h
  refine ⟨_, _, basicMaterial (TexRef.mk (gridTextureFilePath env)),
    reflectorMaterial (TexRef.mk (groundTextureFilePath env))
      (TexRef.mk (alphaMapTextureFilePath env)), rfl, ?_⟩
  refine ⟨?_, ?_, ?_, ?_, ?_, ?_, ?_, ?_, ?_, ?_, ?_, ?_, ?_, ?_, ?_, ?_⟩
  all_goals simp [JSX.child, JSX.children, JSX.tag, overlayMesh, floorMesh,
    basicMaterial, reflectorMaterial, JSX.prop, JSX.props, List.lookup]

/-- C7 at the sample environment and cache: the call returns, and returns
the same tree after the anisotropy effect. -/
theorem C7_material_constants_witness :
    (Ground sampleEnv sampleCache).result = Except.ok
      [overlayMesh (TexRef.mk "/textures/grid.png"),
       floorMesh (TexRef.mk "/textures/ground-ao.png")
         (TexRef.mk "/textures/alpha-map.png")] ∧
    ∀ g, (Ground sampleEnv (anisotropyEffect g sampleCache)).result = Except.ok
      [overlayMesh (TexRef.mk "/textures/grid.png"),
       floorMesh (TexRef.mk "/textures/ground-ao.png")
         (TexRef.mk "/textures/alpha-map.png")] :=
  ⟨sample_result, (C7_material_constants sampleEnv sampleCache _ sample_result).2.2⟩

/-- C8: for every asset root `r`, the three paths are `r` followed by
`/textures/grid.png`, `/textures/ground-ao.png` and
`/textures/alpha-map.png`, pairwise distinct; `Ground` hands no other path
to `useLoader`, and when it returns it has requested exactly these three,
in this order, and the only props that carry a texture are `alphaMap` of
the overlay material (the grid texture) and `aoMap` and `alphaMap` of the
floor material (the ground-ao and the alpha-map texture). -/
theorem C8_texture_paths_and_slots (r : String) (cache : TextureCache) :
    gridTextureFilePath (ProcessEnv.mk (some r)) = r ++ "/textures/grid.png" ∧
    groundTextureFilePath (ProcessEnv.mk (some r)) = r ++ "/textures/ground-ao.png" ∧
    alphaMapTextureFilePath (ProcessEnv.mk (some r)) = r ++ "/textures/alpha-map.png" ∧
    [r ++ "/textures/grid.png", r ++ "/textures/ground-ao.png",
      r ++ "/textures/alpha-map.png"].Nodup ∧
    (∀ p ∈ (Ground (ProcessEnv.mk (some r)) cache).requests,
      p ∈ [r ++ "/textures/grid.png", r ++ "/textures/ground-ao.png",
        r ++ "/textures/alpha-map.png"]) ∧
    (∀ out, (Ground (ProcessEnv.mk (some r)) cache).result = Except.ok out →
      (Ground (ProcessEnv.mk (some r)) cache).requests =
        [r ++ "/textures/grid.png", r ++ "/textures/ground-ao.png",
          r ++ "/textures/alpha-map.png"] ∧
      ∃ gridMap aoMap alphaMap overlay floor,
        useLoader cache (r ++ "/textures/grid.png") = Except.ok gridMap ∧
        useLoader cache (r ++ "/textures/ground-ao.png") = Except.ok aoMap ∧
        useLoader cache (r ++ "/textures/alpha-map.png") = Except.ok alphaMap ∧
        out = [overlay, floor] ∧
        overlay.textureSlots = [] ∧
        floor.textureSlots = [] ∧
        overlay.children.map (fun c => (c.tag, c.textureSlots)) =
          [("planeGeometry", []), ("meshBasicMaterial", [("alphaMap", gridMap)])] ∧
        floor.children.map (fun c => (c.tag, c.textureSlots)) =
          [("circleGeometry", []),
           ("MeshReflectorMaterial", [("aoMap", aoMap), ("alphaMap", alphaMap)])]) := by
  obtain ⟨e1, e2, e3⟩ := paths_of_root r
  have n1 := grid_ne_ground (ProcessEnv.mk (some r))
  have n2 := grid_ne_alpha (ProcessEnv.mk (some r))
  have n3 := ground_ne_alpha (ProcessEnv.mk (some r))
  refine ⟨e1, e2, e3, ?_, ?_, ?_⟩
  · rw [← e1, ← e2, ← e3]
    simp [n1, n2, n3]
  · intro p hp
    rw [← e1, ← e2, ← e3]
    have := Ground_requests_mem _ _ _ hp
    simpa using this
  · intro out h
    obtain ⟨⟨tg, hg⟩, ⟨ta, ha⟩, ⟨tl, hl⟩, rfl⟩ := Ground_result_ok _ cache out h
    refine ⟨?_, ?_⟩
    · rw [Ground_of_loaded _ cache tg ta tl hg ha hl, e1, e2, e3]
    · refine ⟨TexRef.mk (r ++ "/textures/grid.png"),
        TexRef.mk (r ++ "/textures/ground-ao.png"),
        TexRef.mk (r ++ "/textures/alpha-map.png"), _, _, ?_, ?_, ?_, rfl, ?_, ?_, ?_, ?_⟩
      · exact useLoader_loaded _ _ tg (e1 ▸ hg)
      · exact useLoader_loaded _ _ ta (e2 ▸ ha)
      · exact useLoader_loaded _ _ tl (e3 ▸ hl)
      · simp [JSX.textureSlots, JSX.props, overlayMesh]
      · simp [JSX.textureSlots, JSX.props, floorMesh]
      · simp [JSX.textureSlots, JSX.props, JSX.children, JSX.tag, overlayMesh,
          basicMaterial, e1]
      · simp [JSX.textureSlots, JSX.props, JSX.children, JSX.tag, floorMesh,
          reflectorMaterial, e2, e3]

/-- C8 at the empty asset root with every load succeeded. -/
theorem C8_texture_paths_and_slots_witness :
    (Ground (ProcessEnv.mk (some "")) sampleCache).result = Except.ok
      [overlayMesh (TexRef.mk "/textures/grid.png"),
       floorMesh (TexRef.mk "/textures/ground-ao.png")
         (TexRef.mk "/textures/alpha-map.png")] ∧
    (Ground (ProcessEnv.mk (some "")) sampleCache).requests =
      ["" ++ "/textures/grid.png", "" ++ "/textures/ground-ao.png",
        "" ++ "/textures/alpha-map.png"] :=
  ⟨sample_result,
    ((C8_texture_paths_and_slots "" sampleCache).2.2.2.2.2 _ sample_result).1⟩

/-- C9: a load that `Ground` makes and that fails ends the call with that
very error as its result, and nothing is handed to the renderer; this holds
for each of the three textures, the loads before it having succeeded (a
load is made only then). No path is requested twice. `Ground` returns a
tree only when the three loads have succeeded, and then it does. -/
theorem C9_load_errors_propagate (env : ProcessEnv) (cache : TextureCache) :
    (∀ p e, p ∈ (Ground env cache).requests → cache p = LoadState.failed e →
      (Ground env cache).result = Except.error (Thrown.error e) ∧
      (Ground env cache).rendered = []) ∧
    (∀ e, cache (gridTextureFilePath env) = LoadState.failed e →
      (Ground env cache).result = Except.error (Thrown.error e)) ∧
    (∀ e tg, cache (gridTextureFilePath env) = LoadState.loaded tg →
      cache (groundTextureFilePath env) = LoadState.failed e →
      (Ground env cache).result = Except.error (Thrown.error e)) ∧
    (∀ e tg ta, cache (gridTextureFilePath env) = LoadState.loaded tg →
      cache (groundTextureFilePath env) = LoadState.loaded ta →
      cache (alphaMapTextureFilePath env) = LoadState.failed e →
      (Ground env cache).result = Except.error (Thrown.error e)) ∧
    (Ground env cache).requests.Nodup ∧
    (∀ out, (Ground env cache).result = Except.ok out →
      ∀ p ∈ [gridTextureFilePath env, groundTextureFilePath env,
        alphaMapTextureFilePath env], ∃ tex, cache p = LoadState.loaded tex) ∧
    ((∀ p ∈ [gridTextureFilePath env, groundTextureFilePath env,
        alphaMapTextureFilePath env], ∃ tex, cache p = LoadState.loaded tex) →
      ∃ out, (Ground env cache).result = Except.ok out ∧
        (Ground env cache).rendered = out) := by
  refine ⟨?_, ?_, ?_, ?_, Ground_requests_nodup env cache, ?_, ?_⟩
  · intro p e hp hf
    have h := Ground_requested_failed env cache p e hp hf
    exact ⟨h, rendered_of_error _ _ h⟩
  · intro e hg
    rw [Ground_grid_failed env cache e hg]
  · intro e tg hg ha
    rw [Ground_ground_failed env cache tg e hg ha]
  · intro e tg ta hg ha hl
    rw [Ground_alpha_failed env cache tg ta e hg ha hl]
  · intro out h p hp
    obtain ⟨hg, ha, hl, -⟩ := Ground_result_ok env cache out h
    simp only [List.mem_cons, List.mem_singleton, List.not_mem_nil, or_false] at hp
    rcases hp with rfl | rfl | rfl
    · exact hg
    · exact ha
    · exact hl
  · intro hall
    obtain ⟨tg, hg⟩ := hall (gridTextureFilePath env) (by simp)
    obtain ⟨ta, ha⟩ := hall (groundTextureFilePath env) (by simp)
    obtain ⟨tl, hl⟩ := hall (alphaMapTextureFilePath env) (by simp)
    rw [Ground_of_loaded env cache tg ta tl hg ha hl]
    exact ⟨_, rfl, rfl⟩

/-- C9 at the sample environment with the alpha-map load failed. -/
theorem C9_load_errors_propagate_witness :
    failAt "/textures/alpha-map.png" "404" (alphaMapTextureFilePath sampleEnv)
      = LoadState.failed "404" ∧
    (Ground sampleEnv (failAt "/textures/alpha-map.png" "404")).result
      = Except.error (Thrown.error "404") := by
  obtain ⟨⟨tg, hg⟩, ⟨ta, ha⟩, hl⟩ := failAt_alpha
  exact ⟨hl, (C9_load_errors_propagate sampleEnv
    (failAt "/textures/alpha-map.png" "404")).2.2.2.1 "404" tg ta hg ha hl⟩

/-- C10 as stated fails: with the grid and ground-ao textures loaded and
the alpha-map load failed, `Ground` throws the load error and hands no mesh
to the renderer, so there is no floor material that receives a map. -/
theorem C10_no_floor_material :
    useLoader (failAt "/textures/alpha-map.png" "404") "/textures/grid.png"
      = Except.ok (TexRef.mk "/textures/grid.png") ∧
    useLoader (failAt "/textures/alpha-map.png" "404") "/textures/ground-ao.png"
      = Except.ok (TexRef.mk "/textures/ground-ao.png") ∧
    useLoader (failAt "/textures/alpha-map.png" "404") "/textures/alpha-map.png"
      = Except.error (Thrown.error "404") ∧
    (Ground sampleEnv (failAt "/textures/alpha-map.png" "404")).result
      = Except.error (Thrown.error "404") ∧
    (Ground sampleEnv (failAt "/textures/alpha-map.png" "404")).rendered = [] ∧
    ¬ ∃ mesh ∈ (Ground sampleEnv (failAt "/textures/alpha-map.png" "404")).rendered,
        ∃ material ∈ mesh.children,
          ("aoMap", TexRef.mk "/textures/ground-ao.png") ∈ material.textureSlots := by
  obtain ⟨⟨tg, hg⟩, ⟨ta, ha⟩, hl⟩ := failAt_alpha
  have hr := Ground_alpha_failed sampleEnv _ tg ta "404" hg ha hl
  have hres : (Ground sampleEnv (failAt "/textures/alpha-map.png" "404")).result
      = Except.error (Thrown.error "404") := by rw [hr]
  refine ⟨useLoader_loaded _ _ tg hg, useLoader_loaded _ _ ta ha,
    useLoader_failed _ _ _ hl, hres, rendered_of_error _ _ hres, ?_⟩
  rw [rendered_of_error _ _ hres]
  simp

/-- C10, amended: when the alpha-map load fails while the grid and the
ground-ao textures are loaded, `Ground` requests the three paths, its
result is that load error, unchanged, and it hands nothing to the
renderer. -/
theorem C10_alpha_failure (env : ProcessEnv) (cache : TextureCache) (tg ta : Texture)
    (e : String)
    (hg : cache (gridTextureFilePath env) = LoadState.loaded tg)
    (ha : cache (groundTextureFilePath env) = LoadState.loaded ta)
    (hl : cache (alphaMapTextureFilePath env) = LoadState.failed e) :
    (Ground env cache).requests = [gridTextureFilePath env, groundTextureFilePath env,
      alphaMapTextureFilePath env] ∧
    (Ground env cache).result = Except.error (Thrown.error e) ∧
    (Ground env cache).rendered = [] := by
  have hr := Ground_alpha_failed env cache tg ta e hg ha hl
  have hres : (Ground env cache).result = Except.error (Thrown.error e) := by rw [hr]
  exact ⟨by rw [hr], hres, rendered_of_error _ _ hres⟩

/-- C10, amended, at the sample environment with the alpha-map load
failed. -/
theorem C10_alpha_failure_witness :
    failAt "/textures/alpha-map.png" "404" (alphaMapTextureFilePath sampleEnv)
      = LoadState.failed "404" ∧
    (Ground sampleEnv (failAt "/textures/alpha-map.png" "404")).rendered = [] := by
  obtain ⟨⟨tg, hg⟩, ⟨ta, ha⟩, hl⟩ := failAt_alpha
  exact ⟨hl, (C10_alpha_failure sampleEnv _ tg ta "404" hg ha hl).2.2⟩

/-- C3: for textures loaded from the three paths, after the anisotropy
effect the grid texture has anisotropy 16 and its other fields as before,
the ground-ao and alpha-map textures are unchanged, as is every other
cache entry, and running the effect again changes nothing. -/
theorem C3_anisotropy (env : ProcessEnv) (cache : TextureCache)
    (gridMap aoMap alphaMap : TexRef) (tg ta tl : Texture)
    (hg : useLoader cache (gridTextureFilePath env) = Except.ok gridMap)
    (ha : useLoader cache (groundTextureFilePath env) = Except.ok aoMap)
    (hl : useLoader cache (alphaMapTextureFilePath env) = Except.ok alphaMap)
    (dg : deref cache gridMap = some tg)
    (da : deref cache aoMap = some ta)
    (dl : deref cache alphaMap = some tl) :
    (∃ tg1, deref (anisotropyEffect (some gridMap) cache) gridMap = some tg1 ∧
      tg1.anisotropy = 16 ∧ tg1.image = tg.image ∧ tg1.rest = tg.rest) ∧
    deref (anisotropyEffect (some gridMap) cache) aoMap = some ta ∧
    deref (anisotropyEffect (some gridMap) cache) alphaMap = some tl ∧
    (∀ p, p ≠ gridTextureFilePath env →
      anisotropyEffect (some gridMap) cache p = cache p) ∧
    anisotropyEffect (some gridMap) (anisotropyEffect (some gridMap) cache)
      = anisotropyEffect (some gridMap) cache := by
  obtain ⟨-, rfl⟩ := (useLoader_ok_iff _ _ _).1 hg
  obtain ⟨-, rfl⟩ := (useLoader_ok_iff _ _ _).1 ha
  obtain ⟨-, rfl⟩ := (useLoader_ok_iff _ _ _).1 hl
  have n1 := grid_ne_ground env
  have n2 := grid_ne_alpha env
  refine ⟨?_, ?_, ?_, ?_, ?_⟩
  · unfold deref at dg
    simp only at dg
    cases hc : cache (gridTextureFilePath env) with
    | pending => simp [hc] at dg
    | failed e => simp [hc] at dg
    | loaded t =>
      simp [hc] at dg
      subst dg
      exact ⟨{ t with anisotropy := 16 },
        by simp [deref, anisotropyEffect, setAnisotropy, hc], rfl, rfl, rfl⟩
  · rw [← da]
    simp [deref, anisotropyEffect, setAnisotropy, Ne.symm n1]
  · rw [← dl]
    simp [deref, anisotropyEffect, setAnisotropy, Ne.symm n2]
  · intro p hp
    simp [anisotropyEffect, setAnisotropy, hp]
  · funext p
    simp only [anisotropyEffect, setAnisotropy]
    by_cases hp : p = gridTextureFilePath env
    · simp only [hp, if_true]
      cases cache (gridTextureFilePath env) <;> rfl
    · simp only [hp, if_false]

/-- C3 at the sample environment and cache: the ground-ao texture is as
before the effect. -/
theorem C3_anisotropy_witness :
    useLoader sampleCache (gridTextureFilePath sampleEnv)
      = Except.ok (TexRef.mk "/textures/grid.png") ∧
    deref sampleCache (TexRef.mk "/textures/ground-ao.png")
      = some { image := "/textures/ground-ao.png", anisotropy := 1, rest := [] } ∧
    deref (anisotropyEffect (some (TexRef.mk "/textures/grid.png")) sampleCache)
      (TexRef.mk "/textures/ground-ao.png")
      = some { image := "/textures/ground-ao.png", anisotropy := 1, rest := [] } :=
  ⟨rfl, rfl,
    (C3_anisotropy sampleEnv sampleCache (TexRef.mk "/textures/grid.png")
      (TexRef.mk "/textures/ground-ao.png") (TexRef.mk "/textures/alpha-map.png")
      { image := "/textures/grid.png", anisotropy := 1, rest := [] }
      { image := "/textures/ground-ao.png", anisotropy := 1, rest := [] }
      { image := "/textures/alpha-map.png", anisotropy := 1, rest := [] }
      rfl rfl rfl rfl rfl rfl).2.1⟩

/-- C1: when both mesh references are set and both geometries have a `uv`
attribute, the UV-copy effect throws nothing and leaves each mesh with a
`uv2` attribute of item size 2 whose array is the `uv` array of that same
mesh, every other attribute being as before; `meshRef1` is the reference
of the floor mesh and `meshRef2` that of the overlay mesh. -/
theorem C1_uv_copy (s : MeshRefs) (m1 m2 : Mesh) (uv1 uv2 : BufferAttribute)
    (h1 : s.meshRef1 = some m1) (h2 : s.meshRef2 = some m2)
    (hu1 : m1.geometry.attributes "uv" = some uv1)
    (hu2 : m2.geometry.attributes "uv" = some uv2) :
    (uvCopyEffect s).thrown = none ∧
    (∃ m1a m2a a1 a2,
      (uvCopyEffect s).state.meshRef1 = some m1a ∧
      (uvCopyEffect s).state.meshRef2 = some m2a ∧
      m1a.geometry.attributes "uv2" = some a1 ∧
      a1.array = uv1.array ∧ a1.itemSize = 2 ∧
      m2a.geometry.attributes "uv2" = some a2 ∧
      a2.array = uv2.array ∧ a2.itemSize = 2 ∧
      (∀ k, k ≠ "uv2" → m1a.geometry.attributes k = m1.geometry.attributes k) ∧
      (∀ k, k ≠ "uv2" → m2a.geometry.attributes k = m2.geometry.attributes k)) ∧
    (∀ aoMap alphaMap,
      (floorMesh aoMap alphaMap).prop "ref" = some (PropValue.ref RefName.meshRef1)) ∧
    (∀ gridMap,
      (overlayMesh gridMap).prop "ref" = some (PropValue.ref RefName.meshRef2)) := by
  refine ⟨?_, ?_, ?_, ?_⟩
  · simp [uvCopyEffect, h1, h2, hu1, hu2]
  · refine ⟨{ geometry := m1.geometry.setAttribute "uv2" (BufferAttribute.new uv1.array 2) },
      { geometry := m2.geometry.setAttribute "uv2" (BufferAttribute.new uv2.array 2) },
      BufferAttribute.new uv1.array 2, BufferAttribute.new uv2.array 2, ?_, ?_, ?_, rfl, rfl,
      ?_, rfl, rfl, ?_, ?_⟩
    · simp [uvCopyEffect, h1, h2, hu1, hu2]
    · simp [uvCopyEffect, h1, h2, hu1, hu2]
    · simp [BufferGeometry.setAttribute]
    · simp [BufferGeometry.setAttribute]
    · intro k hk
      simp [BufferGeometry.setAttribute, hk]
    · intro k hk
      simp [BufferGeometry.setAttribute, hk]
  · intro aoMap alphaMap
    simp [JSX.prop, JSX.props, floorMesh, List.lookup]
  · intro gridMap
    simp [JSX.prop, JSX.props, overlayMesh, List.lookup]

/-- C1 at two sample meshes: the effect throws nothing. -/
theorem C1_uv_copy_witness :
    (uvCopyEffect { meshRef1 := some (sampleMesh [0, 0, 1, 0, 0, 1]),
                    meshRef2 := some (sampleMesh [1, 1, 0, 1]) }).thrown = none :=
  (C1_uv_copy
    { meshRef1 := some (sampleMesh [0, 0, 1, 0, 0, 1]),
      meshRef2 := some (sampleMesh [1, 1, 0, 1]) }
    (sampleMesh [0, 0, 1, 0, 0, 1]) (sampleMesh [1, 1, 0, 1])
    (BufferAttribute.new [0, 0, 1, 0, 0, 1] 2) (BufferAttribute.new [1, 1, 0, 1] 2)
    rfl rfl rfl rfl).1

/-- C2 as stated fails: in a state where `meshRef2` is absent and
`meshRef1` is set, the UV-copy effect is not a no-op: it gives the first
mesh a `uv2` attribute it did not have and then throws a `TypeError` on
reading `geometry` of `null`. -/
theorem C2_guard_misses_meshRef2 :
    (MeshRefs.mk (some (sampleMesh [0, 0, 1, 0, 0, 1])) none).meshRef2.isNone = true ∧
    (uvCopyEffect { meshRef1 := some (sampleMesh [0, 0, 1, 0, 0, 1]),
                    meshRef2 := none }).thrown
      = some (JsError.typeError "geometry") ∧
    (sampleMesh [0, 0, 1, 0, 0, 1]).geometry.attributes "uv2" = none ∧
    ((uvCopyEffect { meshRef1 := some (sampleMesh [0, 0, 1, 0, 0, 1]),
                     meshRef2 := none }).state.meshRef1.bind
        (fun m => m.geometry.attributes "uv2"))
      = some (BufferAttribute.new [0, 0, 1, 0, 0, 1] 2) := by
  refine ⟨rfl, ?_, ?_, ?_⟩
  · simp [uvCopyEffect, sampleMesh]
  · simp [sampleMesh]
  · simp [uvCopyEffect, sampleMesh, BufferGeometry.setAttribute, BufferAttribute.new]

/-- C2, amended: the UV-copy effect is guarded against an absent
`meshRef1`: in every state where `meshRef1` is absent, whatever `meshRef2`
is, the effect throws nothing and leaves the state, hence both geometries,
as it was. -/
theorem C2_meshRef1_guard (s : MeshRefs) (h : s.meshRef1 = none) :
    (uvCopyEffect s).thrown = none ∧ (uvCopyEffect s).state = s := by
  simp [uvCopyEffect, h]

/-- C2, amended, at a state with `meshRef1` absent and `meshRef2` set. -/
theorem C2_meshRef1_guard_witness :
    (MeshRefs.mk none (some (sampleMesh [1, 1, 0, 1]))).meshRef1 = none ∧
    (uvCopyEffect { meshRef1 := none, meshRef2 := some (sampleMesh [1, 1, 0, 1]) }).thrown
      = none ∧
    (uvCopyEffect { meshRef1 := none, meshRef2 := some (sampleMesh [1, 1, 0, 1]) }).state
      = { meshRef1 := none, meshRef2 := some (sampleMesh [1, 1, 0, 1]) } :=
  ⟨rfl, C2_meshRef1_guard { meshRef1 := none, meshRef2 := some (sampleMesh [1, 1, 0, 1]) } rfl⟩

end CarRacing
